import Mathlib

/-!
Verification of the `OpenStackIntegrationRequires` endpoint
(`src/requires.py` of interface-openstack-integration).

The endpoint's externally visible state is embedded shallowly:

* `Relation` models one established relation; its `received` field is the
  combined received-data view of the joined units, an association list from
  keys to values.  Looking up a missing key in that view yields `none`
  (the view behaves like a `defaultdict` returning Python `None`, so a
  missing key never raises), and a relation with no joined units simply has
  an empty view.
* `State` carries the endpoint's relation list together with the three
  reactive flags `joined`, `ready` and `changed` of the endpoint's flag
  namespace.
* Python values stored in the view are modelled as `String`; Python
  truthiness of an optional value is `pyTruthy` (`None` and the empty
  string are falsy).

Fallible accessors return `Except String`: `self.relations[0]` on an empty
relation list raises `IndexError` in Python, which the embedding surfaces
as `Except.error "IndexError"`.  `toggle_flag(name, value)` sets the flag
when `value` is truthy and clears it otherwise; since Python evaluates the
`self.is_ready` argument before the call, a raise inside `is_ready`
happens before any flag is touched, which the `Except.map` in
`check_ready` reflects.
-/

namespace OpenStackIntegration

/-- One established relation of the endpoint.  `received` is the combined
received-data view over the relation's joined units
(`relation.joined_units.received`). -/
structure Relation where
  received : List (String × String)
deriving DecidableEq

/-- The externally visible state of the endpoint: the list
`self.relations` plus the three flags of the endpoint's namespace
(`endpoint.{endpoint_name}.joined` / `.ready` / `.changed`). -/
structure State where
  relations : List Relation
  joined : Bool
  ready : Bool
  changed : Bool
deriving DecidableEq

/-- Python truthiness of an optional value: `None` and the empty string
are falsy, every other string is truthy. -/
def pyTruthy : Option String → Bool
  | none => false
  | some v => !v.isEmpty

/-- Embedding of the `_received` property:
`return self.relations[0].joined_units.received`.  Indexing `[0]` into an
empty relation list raises `IndexError`. -/
def _received (s : State) : Except String (List (String × String)) :=
  match s.relations with
  | [] => Except.error "IndexError"
  | r :: _ => Except.ok r.received

/-- Embedding of the `credentials` property:
`return self._received['credentials']`.  Subscripting the received view
with a missing key yields `None` (modelled `none`) rather than raising. -/
def credentials (s : State) : Except String (Option String) :=
  Except.map (List.lookup "credentials") (_received s)

/-- Embedding of the `is_ready` property: `return bool(self.credentials)`. -/
def is_ready (s : State) : Except String Bool :=
  Except.map pyTruthy (credentials s)

/-- Embedding of the `check_ready` handler
(`@when('endpoint.{endpoint_name}.changed')`):
`toggle_flag(self.expand_name('ready'), self.is_ready)` followed by
`clear_flag(self.expand_name('changed'))`.  The `self.is_ready` argument
is evaluated first, so a raise there leaves every flag untouched. -/
def check_ready (s : State) : Except String State :=
  Except.map (fun b => { s with ready := b, changed := false }) (is_ready s)

/-- Embedding of the `remove_ready` handler
(`@when_not('endpoint.{endpoint_name}.joined')`):
`clear_flag(self.expand_name('ready'))`. -/
def remove_ready (s : State) : State :=
  { s with ready := false }

/-- One round of reactive dispatch after an external event: the
`remove_ready` handler runs when the `joined` flag is down, and the
`check_ready` handler runs when the `changed` flag is up.  Each handler
runs to completion before the next external event is processed. -/
def dispatch (s : State) : Except String State :=
  let s1 := if s.joined then s else remove_ready s
  if s1.changed then check_ready s1 else Except.ok s1

/-- The endpoint before any relation exists: no relation, every flag
down. -/
def init : State :=
  { relations := [], joined := false, ready := false, changed := false }

/-- External events of the hosting framework, each followed by a round of
handler dispatch run to completion: a relation is established (the
framework raises the `joined` flag), the relation's data changes (the
framework raises the `changed` flag), or the relation is broken (the
framework clears the `joined` flag and drops the relation). -/
inductive Step : State → State → Prop
  | join (s : State) (r : Relation) (s' : State) :
      s.relations = [] →
      dispatch { s with relations := [r], joined := true } = Except.ok s' →
      Step s s'
  | change (s : State) (r : Relation) (d : List (String × String)) (s' : State) :
      s.relations = [r] →
      dispatch { s with relations := [Relation.mk d], changed := true } = Except.ok s' →
      Step s s'
  | brk (s s' : State) :
      dispatch { s with relations := [], joined := false } = Except.ok s' →
      Step s s'

/-- States reachable from `init` by external events plus dispatched
handlers run to completion. -/
inductive Reachable : State → Prop
  | init : Reachable init
  | step {s s' : State} : Reachable s → Step s s' → Reachable s'

/-- Inductive invariant of the reachable states: the `joined` flag tracks
relation existence, the `changed` flag has always been consumed by the end
of a dispatch round, and readiness never outlives the relation. -/
def Inv (s : State) : Prop :=
  s.joined = !s.relations.isEmpty ∧ s.changed = false ∧
    (s.joined = false → s.ready = false)

theorem inv_init : Inv init := by
  refine ⟨rfl, rfl, fun _ => rfl⟩

theorem inv_step {s s' : State} (hinv : Inv s) (hstep : Step s s') : Inv s' := by
  obtain ⟨rels, j, rd, c⟩ := s
  obtain ⟨hj, hc, hready⟩ := hinv
  dsimp only at hj hc hready
  subst hc
  cases hstep with
  | join r _ hrel hd =>
    dsimp only at hrel
    subst hrel
    simp only [List.isEmpty_nil, Bool.not_true] at hj
    subst hj
    simp only [dispatch, remove_ready, check_ready, is_ready, credentials,
      _received, Except.map, if_true, Bool.false_eq_true, if_false,
      Except.ok.injEq, reduceIte] at hd
    subst hd
    simp [Inv]
  | change r d _ hrel hd =>
    dsimp only at hrel
    subst hrel
    simp only [List.isEmpty_cons, Bool.not_false] at hj
    subst hj
    simp only [dispatch, remove_ready, check_ready, is_ready, credentials,
      _received, Except.map, if_true, Bool.false_eq_true, if_false,
      Except.ok.injEq, reduceIte] at hd
    subst hd
    simp [Inv]
  | brk _ hd =>
    simp only [dispatch, remove_ready, check_ready, is_ready, credentials,
      _received, Except.map, if_true, Bool.false_eq_true, if_false,
      Except.ok.injEq, reduceIte] at hd
    subst hd
    simp [Inv]

theorem reachable_inv {s : State} (h : Reachable s) : Inv s := by
  induction h with
  | init => exact inv_init
  | step _ hstep ih => exact inv_step ih hstep

/-- A relation whose counterpart has published a non-empty credentials
value; used as a concrete test state. -/
def rTok : Relation := { received := [("credentials", "tok-123")] }

/-- Claim C1 counterexample: with no relation at all, `is_ready` raises
`IndexError` from `self.relations[0]` instead of returning false. -/
theorem c1_no_relation_raises :
    is_ready { relations := [], joined := false, ready := false, changed := false } =
        Except.error "IndexError" ∧
      is_ready { relations := [], joined := false, ready := false, changed := false } ≠
        Except.ok false := by
  refine ⟨rfl, ?_⟩
  simp [is_ready, credentials, _received, Except.map]

/-- Claim C1 (amended): whenever at least one relation exists, `is_ready`
returns true exactly when the received value at key `credentials` is
present and non-empty; with no relation it raises `IndexError` instead of
returning false. -/
theorem c1_is_ready_with_relation (s : State) (r : Relation) (rest : List Relation)
    (h : s.relations = r :: rest) :
    (is_ready s = Except.ok true ↔
      ∃ v, List.lookup "credentials" r.received = some v ∧ v ≠ "") := by
  simp only [is_ready, credentials, _received, h, Except.map, Except.ok.injEq]
  cases hv : List.lookup "credentials" r.received with
  | none => simp [pyTruthy]
  | some v => simp [pyTruthy, ← String.isEmpty_iff]

/-- Claim C1 witness: the amended statement at a concrete state with a
non-empty credentials value. -/
theorem c1_witness :
    (is_ready { relations := [rTok], joined := true, ready := false, changed := false } =
        Except.ok true ↔
      ∃ v, List.lookup "credentials" rTok.received = some v ∧ v ≠ "") :=
  c1_is_ready_with_relation _ rTok [] rfl

/-- Claim C2 counterexample: with no relation, `credentials` raises
`IndexError` from `self.relations[0]` instead of returning an
empty/absent value. -/
theorem c2_no_relation_raises :
    credentials { relations := [], joined := false, ready := false, changed := true } =
      Except.error "IndexError" := rfl

/-- Claim C2 (amended): whenever at least one relation exists,
`credentials` is total: it returns the value at key `credentials` of the
first relation's received data, and `none` (Python `None`) when the key
is absent; with no relation it raises `IndexError`. -/
theorem c2_credentials_with_relation (s : State) (r : Relation) (rest : List Relation)
    (h : s.relations = r :: rest) :
    credentials s = Except.ok (List.lookup "credentials" r.received) := by
  simp [credentials, _received, h, Except.map]

/-- A concrete state with one relation whose received data has no
`credentials` key. -/
def sNoKey : State :=
  { relations := [Relation.mk []], joined := true, ready := false, changed := false }

/-- Claim C2 witness: a relation whose received data has no
`credentials` key yields `Except.ok none`, not a fault. -/
theorem c2_witness : credentials sNoKey = Except.ok none :=
  c2_credentials_with_relation _ (Relation.mk []) [] rfl

/-- Claim C3 counterexample: with the `changed` flag set but no relation,
`check_ready` raises `IndexError` while evaluating `self.is_ready`, so it
neither updates `ready` nor clears `changed`. -/
theorem c3_changed_no_relation_raises :
    check_ready { relations := [], joined := false, ready := false, changed := true } =
      Except.error "IndexError" := rfl

/-- Claim C3 (amended): for every state in which the `changed` flag is
set and at least one relation exists (so that `is_ready` evaluates),
`check_ready` sets `ready` to the value of `is_ready` and clears
`changed`; with no relation it raises instead. -/
theorem c3_check_ready_spec (s : State) (b : Bool) (_hc : s.changed = true)
    (hb : is_ready s = Except.ok b) :
    check_ready s = Except.ok { s with ready := b, changed := false } := by
  simp [check_ready, hb, Except.map]

/-- Claim C3 witness: the amended statement at a concrete changed state
with a truthy credentials value. -/
theorem c3_witness :
    check_ready { relations := [rTok], joined := true, ready := false, changed := true } =
      Except.ok { relations := [rTok], joined := true, ready := true, changed := false } :=
  c3_check_ready_spec { relations := [rTok], joined := true, ready := false, changed := true }
    true rfl rfl

/-- Claim C4: in every state reachable from `init` by external join,
data-change and break events with dispatched handlers run to completion,
a lowered `joined` flag forces a lowered `ready` flag. -/
theorem c4_not_joined_not_ready (s : State) (h : Reachable s) (hj : s.joined = false) :
    s.ready = false :=
  (reachable_inv h).2.2 hj

/-- Claim C4 witness: the invariant applied to the concrete reachable
state obtained by joining, receiving credentials (which raises `ready`),
and then breaking the relation. -/
theorem c4_witness :
    ({ relations := [], joined := false, ready := false, changed := false } : State).ready =
      false :=
  c4_not_joined_not_ready _
    (Reachable.step
      (Reachable.step
        (Reachable.step Reachable.init
          (Step.join init rTok
            { relations := [rTok], joined := true, ready := false, changed := false } rfl rfl))
        (Step.change { relations := [rTok], joined := true, ready := false, changed := false }
          rTok [("credentials", "tok-123")]
          { relations := [rTok], joined := true, ready := true, changed := false } rfl rfl))
      (Step.brk { relations := [rTok], joined := true, ready := true, changed := false }
        { relations := [], joined := false, ready := false, changed := false } rfl))
    rfl

/-- Claim C5: invoking `remove_ready` leaves the `ready` flag cleared,
whatever the prior state (including a prior `ready = true` and stale
credentials still present in received data). -/
theorem c5_remove_ready_clears (s : State) : (remove_ready s).ready = false := rfl

/-- Claim C6 counterexample: `check_ready` does not always succeed: in a
state with `changed` set and no relation object, it raises `IndexError`. -/
theorem c6_changed_no_relation_raises :
    check_ready { relations := [], joined := true, ready := false, changed := true } =
      Except.error "IndexError" := rfl

/-- Claim C6 (amended): `check_ready` runs to completion without raising
in every state in which at least one relation exists; when no relation
object exists it raises `IndexError`. -/
theorem c6_check_ready_ok_with_relation (s : State) (h : s.relations ≠ []) :
    ∃ s' : State, check_ready s = Except.ok s' := by
  cases hr : s.relations with
  | nil => exact absurd hr h
  | cons r rest =>
    exact ⟨{ s with ready := pyTruthy (List.lookup "credentials" r.received), changed := false },
      by simp [check_ready, is_ready, credentials, _received, hr, Except.map]⟩

/-- A concrete state with one relation carrying credentials and a raised
`changed` flag. -/
def sTokChanged : State :=
  { relations := [rTok], joined := true, ready := false, changed := true }

/-- Claim C6 witness: the amended statement at a concrete state with a
relation present. -/
theorem c6_witness : ∃ s' : State, check_ready sTokChanged = Except.ok s' :=
  c6_check_ready_ok_with_relation sTokChanged (by simp [sTokChanged])

/-- Claim C7: `check_ready` is idempotent: whenever a first invocation
completes with post-state `s'`, invoking it again from `s'` completes and
leaves the state (in particular the `ready` and `changed` flags)
unchanged. -/
theorem c7_check_ready_idempotent (s s' : State) (h : check_ready s = Except.ok s') :
    check_ready s' = Except.ok s' := by
  obtain ⟨rels, j, rd, c⟩ := s
  cases rels with
  | nil => simp [check_ready, is_ready, credentials, _received, Except.map] at h
  | cons r rest =>
    simp only [check_ready, is_ready, credentials, _received, Except.map,
      Except.ok.injEq] at h
    subst h
    simp [check_ready, is_ready, credentials, _received, Except.map]

/-- Claim C7 witness: idempotence applied to a concrete first invocation
from a changed state with credentials present. -/
theorem c7_witness :
    check_ready { relations := [rTok], joined := true, ready := true, changed := false } =
      Except.ok { relations := [rTok], joined := true, ready := true, changed := false } :=
  c7_check_ready_idempotent
    { relations := [rTok], joined := true, ready := false, changed := true } _ rfl

/-- Claim C8: wherever `credentials` is defined, `is_ready` is exactly
its Python truthiness: `is_ready` yields true iff the credentials value
is present and non-empty, so the two accessors can never disagree. -/
theorem c8_is_ready_matches_credentials (s : State) (v : Option String)
    (h : credentials s = Except.ok v) :
    (is_ready s = Except.ok true ↔ pyTruthy v = true) := by
  simp [is_ready, h, Except.map]

/-- Claim C8 witness: the agreement at a concrete state whose
credentials value is the non-empty string. -/
theorem c8_witness :
    (is_ready { relations := [rTok], joined := true, ready := false, changed := false } =
        Except.ok true ↔
      pyTruthy (some "tok-123") = true) :=
  c8_is_ready_matches_credentials _ (some "tok-123") rfl

/-- Claim C9: `remove_ready` clears only the `ready` flag: the `changed`
flag, the `joined` flag and the relation data are all left untouched, so
a pending `changed` flag survives the relation becoming not-joined. -/
theorem c9_remove_ready_frame (s : State) :
    (remove_ready s).ready = false ∧ (remove_ready s).changed = s.changed ∧
      (remove_ready s).joined = s.joined ∧ (remove_ready s).relations = s.relations :=
  ⟨rfl, rfl, rfl, rfl⟩

/-- Claim C10: with several relations connected, `credentials` and
`is_ready` consult only the first relation in the endpoint's relation
list; the received data of every other relation has no effect on their
results. -/
theorem c10_first_relation_only (r : Relation) (rest : List Relation) (j rd c : Bool) :
    credentials { relations := r :: rest, joined := j, ready := rd, changed := c } =
        Except.ok (List.lookup "credentials" r.received) ∧
      is_ready { relations := r :: rest, joined := j, ready := rd, changed := c } =
        Except.ok (pyTruthy (List.lookup "credentials" r.received)) :=
  ⟨rfl, rfl⟩

end OpenStackIntegration
